import Mathlib

/-!
Verification development for the Findora seller-onboarding subsystem.

The definitions below are a shallow embedding of:
  - `src/app/api/seller/register/route.ts` (registration POST handler, its zod
    schema `sellerRegistrationSchema`, and the profile-query GET handler),
  - `src/app/seller/register/page.tsx` (client schema, `toggleCategory`,
    submit-button handler, category catalog),
  - `src/app/seller/documents/page.tsx` (`handleFileSelect`, `allowedTypes`).

The persisted store (Prisma `sellerProfile` / `user` tables) is modelled as an
explicit in-memory state threaded through the handlers; timestamps are a `Nat`
clock held in the state; the handlers' JSON responses are modelled as inductive
response types carrying exactly the fields the source `select`s.
-/

/-- A JSON registration payload, one optional field per key of the zod object
`sellerRegistrationSchema` (fields absent from the JSON body are `none`).
`yearsInBusiness` is a number after zod coercion; `productCategories` is a
JSON array of strings; booleans are JSON booleans. -/
structure Payload where
  businessName : Option String
  businessType : Option String
  description : Option String
  website : Option String
  phone : Option String
  businessEmail : Option String
  contactPersonName : Option String
  addressLine1 : Option String
  addressLine2 : Option String
  city : Option String
  state : Option String
  country : Option String
  postalCode : Option String
  taxId : Option String
  gstVatNumber : Option String
  businessLicense : Option String
  yearsInBusiness : Option Int
  facebookUrl : Option String
  instagramUrl : Option String
  linkedinUrl : Option String
  twitterUrl : Option String
  bankAccountHolder : Option String
  bankName : Option String
  accountNumber : Option String
  ifscSwiftCode : Option String
  bankBranchAddress : Option String
  productCategories : Option (List String)
  managesOwnShipping : Option Bool
  needsShippingHelp : Option Bool
  termsAccepted : Option Bool
  deriving DecidableEq, Repr

/-- Check of `z.string().min(n)`: the field must be present and at least `n`
characters long. -/
def reqMin (n : Nat) : Option String → Bool
  | some s => decide (n ≤ s.length)
  | none => false

/-- Check of `z.string().min(lo).max(hi).optional()`: absent is fine, a present
string must have length between `lo` and `hi`. -/
def optMinMax (lo hi : Nat) : Option String → Bool
  | some s => decide (lo ≤ s.length) && decide (s.length ≤ hi)
  | none => true

/-- Abstraction of the zod `.url()` format check (implemented inside the
external zod library, which accepts what the WHATWG URL constructor parses;
modelled as an http/https scheme check, identically on client and server). -/
def isUrl (s : String) : Bool :=
  "http://".data.isPrefixOf s.data || "https://".data.isPrefixOf s.data

/-- Check of `z.string().url().optional().or(z.literal(''))`: absent or the
empty string are fine, otherwise the URL format must hold. -/
def urlOrEmpty : Option String → Bool
  | some s => s == "" || isUrl s
  | none => true

/-- Abstraction of the zod `.email()` format check (implemented inside the
external zod library; modelled as an at-sign check, identically on client and
server). -/
def isEmail (s : String) : Bool :=
  s.data.contains '@' && decide (3 ≤ s.length)

/-- Check of `z.string().email().optional().or(z.literal(''))`. -/
def emailOrEmpty : Option String → Bool
  | some s => s == "" || isEmail s
  | none => true

/-- Check of the phone regex `[+]?[0-9\s\-\(\)]{10,}` anchored at both ends:
an optional leading plus, then at least ten characters, each a digit,
whitespace, dash, or parenthesis. -/
def phoneOk (s : String) : Bool :=
  let core := match s.data with
    | '+' :: rest => rest
    | cs => cs
  decide (10 ≤ core.length) &&
    core.all (fun c => c.isDigit || c.isWhitespace || c == '-' || c == '(' || c == ')')

/-- Check of `z.string().regex(phone pattern)`: the field is required. -/
def phoneCheck : Option String → Bool
  | some s => phoneOk s
  | none => false

/-- Check of `z.enum([...])`: the field must be present and one of the listed
literals. -/
def enumCheck (values : List String) : Option String → Bool
  | some s => values.contains s
  | none => false

/-- Check of `z.coerce.number().min(lo).max(hi).optional()`. -/
def numRange (lo hi : Int) : Option Int → Bool
  | some n => decide (lo ≤ n) && decide (n ≤ hi)
  | none => true

/-- Check of `z.array(z.string()).min(1)`: a present array with at least one
element (note: the element strings themselves are unconstrained). -/
def nonEmptyArr : Option (List String) → Bool
  | some l => decide (1 ≤ l.length)
  | none => false

/-- Check of `z.boolean().refine(val => val === true)`: the field must be
present and `true`. -/
def termsCheck : Option Bool → Bool
  | some b => b
  | none => false

/-- The business-type enum shared by both schemas. -/
def businessTypes : List String :=
  ["INDIVIDUAL", "SOLE_PROPRIETORSHIP", "PARTNERSHIP", "LLC", "CORPORATION", "NONPROFIT"]

/-- Server-side `sellerRegistrationSchema.safeParse` success, from
`src/app/api/seller/register/route.ts` lines 7-55. Conjuncts appear in the
schema's key order; keys whose zod check never fails (`z.string().optional()`
on addressLine2, gstVatNumber, bankBranchAddress, and the two
`z.boolean().default(..)` shipping flags) are omitted as vacuously true. -/
def validateServer (p : Payload) : Bool :=
  reqMin 2 p.businessName &&
  enumCheck businessTypes p.businessType &&
  optMinMax 10 500 p.description &&
  urlOrEmpty p.website &&
  phoneCheck p.phone &&
  emailOrEmpty p.businessEmail &&
  reqMin 2 p.contactPersonName &&
  reqMin 5 p.addressLine1 &&
  reqMin 2 p.city &&
  reqMin 2 p.state &&
  reqMin 2 p.country &&
  reqMin 3 p.postalCode &&
  reqMin 5 p.taxId &&
  reqMin 3 p.businessLicense &&
  numRange 0 100 p.yearsInBusiness &&
  urlOrEmpty p.facebookUrl &&
  urlOrEmpty p.instagramUrl &&
  urlOrEmpty p.linkedinUrl &&
  urlOrEmpty p.twitterUrl &&
  reqMin 2 p.bankAccountHolder &&
  reqMin 2 p.bankName &&
  reqMin 8 p.accountNumber &&
  reqMin 8 p.ifscSwiftCode &&
  nonEmptyArr p.productCategories &&
  termsCheck p.termsAccepted

/-- Client-side `sellerRegistrationSchema` success, from
`src/app/seller/register/page.tsx` lines 12-60. It differs from the server
schema only in minimum lengths: taxId `.min(1)` (server 5), businessLicense
`.min(1)` (server 3), bankAccountHolder `.min(1)` (server 2), bankName
`.min(1)` (server 2), accountNumber `.min(1)` (server 8), ifscSwiftCode
`.min(1)` (server 8). -/
def validateClient (p : Payload) : Bool :=
  reqMin 2 p.businessName &&
  enumCheck businessTypes p.businessType &&
  optMinMax 10 500 p.description &&
  urlOrEmpty p.website &&
  phoneCheck p.phone &&
  emailOrEmpty p.businessEmail &&
  reqMin 2 p.contactPersonName &&
  reqMin 5 p.addressLine1 &&
  reqMin 2 p.city &&
  reqMin 2 p.state &&
  reqMin 2 p.country &&
  reqMin 3 p.postalCode &&
  reqMin 1 p.taxId &&
  reqMin 1 p.businessLicense &&
  numRange 0 100 p.yearsInBusiness &&
  urlOrEmpty p.facebookUrl &&
  urlOrEmpty p.instagramUrl &&
  urlOrEmpty p.linkedinUrl &&
  urlOrEmpty p.twitterUrl &&
  reqMin 1 p.bankAccountHolder &&
  reqMin 1 p.bankName &&
  reqMin 1 p.accountNumber &&
  reqMin 1 p.ifscSwiftCode &&
  nonEmptyArr p.productCategories &&
  termsCheck p.termsAccepted

/-- A persisted seller-profile row, with the columns the POST handler writes
(`db.sellerProfile.create`, `src/app/api/seller/register/route.ts` lines
93-128) plus the read-only aggregate columns the GET handler selects
(averageRating, totalRatings, totalSales, updatedAt), which are maintained by
out-of-scope collaborators. Timestamps are the state's `Nat` clock; the
aggregate rating is abstracted to an integer. -/
structure SellerProfile where
  id : Nat
  userId : String
  businessName : String
  businessType : String
  description : Option String
  website : Option String
  phone : String
  businessEmail : Option String
  contactPersonName : String
  addressLine1 : String
  addressLine2 : Option String
  city : String
  state : String
  country : String
  postalCode : String
  taxId : String
  gstVatNumber : Option String
  businessLicense : String
  yearsInBusiness : Option Int
  facebookUrl : Option String
  instagramUrl : Option String
  linkedinUrl : Option String
  twitterUrl : Option String
  bankAccountHolder : String
  bankName : String
  accountNumber : String
  ifscSwiftCode : String
  bankBranchAddress : Option String
  productCategories : List String
  managesOwnShipping : Bool
  needsShippingHelp : Bool
  termsAccepted : Bool
  termsAcceptedAt : Option Nat
  verificationStatus : String
  createdAt : Nat
  updatedAt : Nat
  averageRating : Int
  totalRatings : Nat
  totalSales : Nat
  deriving DecidableEq, Repr

/-- The persistent store shared by the endpoints: the seller-profile rows, the
user rows reduced to their (id, role) pair, the current clock (for `new Date()`
and the `createdAt`/`updatedAt` defaults), and the next fresh row id. -/
structure ServerState where
  profiles : List SellerProfile
  roles : List (String × String)
  now : Nat
  nextId : Nat
  deriving DecidableEq, Repr

/-- The JavaScript normalization `x || null` on an optional string field:
an absent field and the empty string both store NULL. -/
def emptyToNull : Option String → Option String
  | some s => if s = "" then none else some s
  | none => none

/-- The JavaScript normalization `x || null` on the optional numeric
`yearsInBusiness` field: absent and the falsy `0` both store NULL. -/
def zeroToNull : Option Int → Option Int
  | some n => if n = 0 then none else some n
  | none => none

/-- The row written by `db.sellerProfile.create` (route.ts lines 93-128) for
identity `uid` from validated payload `p` in state `s`: `x || null`
normalization on every optional column, `termsAcceptedAt` set to the current
time exactly when `termsAccepted` holds, `verificationStatus` initialised to
PENDING, aggregates at their column defaults. -/
def mkProfile (uid : String) (p : Payload) (s : ServerState) : SellerProfile where
  id := s.nextId
  userId := uid
  businessName := p.businessName.getD ""
  businessType := p.businessType.getD ""
  description := emptyToNull p.description
  website := emptyToNull p.website
  phone := p.phone.getD ""
  businessEmail := emptyToNull p.businessEmail
  contactPersonName := p.contactPersonName.getD ""
  addressLine1 := p.addressLine1.getD ""
  addressLine2 := emptyToNull p.addressLine2
  city := p.city.getD ""
  state := p.state.getD ""
  country := p.country.getD ""
  postalCode := p.postalCode.getD ""
  taxId := p.taxId.getD ""
  gstVatNumber := emptyToNull p.gstVatNumber
  businessLicense := p.businessLicense.getD ""
  yearsInBusiness := zeroToNull p.yearsInBusiness
  facebookUrl := emptyToNull p.facebookUrl
  instagramUrl := emptyToNull p.instagramUrl
  linkedinUrl := emptyToNull p.linkedinUrl
  twitterUrl := emptyToNull p.twitterUrl
  bankAccountHolder := p.bankAccountHolder.getD ""
  bankName := p.bankName.getD ""
  accountNumber := p.accountNumber.getD ""
  ifscSwiftCode := p.ifscSwiftCode.getD ""
  bankBranchAddress := emptyToNull p.bankBranchAddress
  productCategories := p.productCategories.getD []
  managesOwnShipping := p.managesOwnShipping.getD true
  needsShippingHelp := p.needsShippingHelp.getD false
  termsAccepted := p.termsAccepted.getD false
  termsAcceptedAt := if p.termsAccepted.getD false then some s.now else none
  verificationStatus := "PENDING"
  createdAt := s.now
  updatedAt := s.now
  averageRating := 0
  totalRatings := 0
  totalSales := 0

/-- The projection the POST handler `select`s from the created row (route.ts
lines 129-135): exactly id, businessName, businessType, verificationStatus and
createdAt — no payment, tax, address or contact columns. -/
structure CreatedProjection where
  id : Nat
  businessName : String
  businessType : String
  verificationStatus : String
  createdAt : Nat
  deriving DecidableEq, Repr

/-- The `select` of the POST handler applied to a row. -/
def projectCreated (prof : SellerProfile) : CreatedProjection where
  id := prof.id
  businessName := prof.businessName
  businessType := prof.businessType
  verificationStatus := prof.verificationStatus
  createdAt := prof.createdAt

/-- The four responses the POST handler can produce (ignoring the
internal-error catch-all, which only arises from persistence faults outside
this model): 401, 400, 409, and 201 with the created projection. -/
inductive PostResponse where
  | unauthorized
  | invalidInput
  | conflict
  | created (seller : CreatedProjection)
  deriving DecidableEq, Repr

/-- The duplicate-profile probe `db.sellerProfile.findUnique({where:{userId}})`
used as an existence check (route.ts lines 81-90). -/
def hasProfile (uid : String) (s : ServerState) : Bool :=
  s.profiles.any (fun prof => prof.userId == uid)

/-- The role promotion `db.user.update({where:{id}, data:{role:'SELLER'}})`
(route.ts lines 139-142), applied to the user-row list. -/
def promoteRole (uid : String) (roles : List (String × String)) :
    List (String × String) :=
  roles.map (fun r => if r.1 == uid then (r.1, "SELLER") else r)

/-- The POST `/api/seller/register` handler (route.ts lines 57-158):
authentication check, schema validation, duplicate-profile check, then row
creation followed by role promotion, answering with the created projection. -/
def POST (auth : Option String) (p : Payload) (s : ServerState) :
    PostResponse × ServerState :=
  match auth with
  | none => (.unauthorized, s)
  | some uid =>
    if validateServer p = false then (.invalidInput, s)
    else if hasProfile uid s then (.conflict, s)
    else
      let prof := mkProfile uid p s
      (.created (projectCreated prof),
       { s with
           profiles := prof :: s.profiles
           roles := promoteRole uid s.roles
           nextId := s.nextId + 1 })

/-- The projection the GET handler `select`s (route.ts GET, select block):
exactly id, businessName, businessType, description, website, phone,
verificationStatus, averageRating, totalRatings, totalSales, createdAt,
updatedAt — no payment or tax columns. -/
structure GetProjection where
  id : Nat
  businessName : String
  businessType : String
  description : Option String
  website : Option String
  phone : String
  verificationStatus : String
  averageRating : Int
  totalRatings : Nat
  totalSales : Nat
  createdAt : Nat
  updatedAt : Nat
  deriving DecidableEq, Repr

/-- The `select` of the GET handler applied to a row. -/
def projectGet (prof : SellerProfile) : GetProjection where
  id := prof.id
  businessName := prof.businessName
  businessType := prof.businessType
  description := prof.description
  website := prof.website
  phone := prof.phone
  verificationStatus := prof.verificationStatus
  averageRating := prof.averageRating
  totalRatings := prof.totalRatings
  totalSales := prof.totalSales
  createdAt := prof.createdAt
  updatedAt := prof.updatedAt

/-- The three responses of the profile-query GET handler (again ignoring the
internal-error catch-all): 401, 404, and 200 with the read-only projection. -/
inductive GetResponse where
  | unauthorized
  | notFound
  | ok (seller : GetProjection)
  deriving DecidableEq, Repr

/-- The profile lookup `db.sellerProfile.findUnique({where:{userId}})` of the
GET handler. -/
def findProfile (uid : String) (s : ServerState) : Option SellerProfile :=
  s.profiles.find? (fun prof => prof.userId == uid)

/-- The GET profile-query handler: authentication check, lookup, projection.
It issues no write, so it returns the store unchanged. -/
def GET (auth : Option String) (s : ServerState) : GetResponse × ServerState :=
  match auth with
  | none => (.unauthorized, s)
  | some uid =>
    match findProfile uid s with
    | none => (.notFound, s)
    | some prof => (.ok (projectGet prof), s)

/-- The fixed 16-entry category catalog rendered by the client form
(`src/app/seller/register/page.tsx` lines 73-78). -/
def productCategories : List String :=
  ["Electronics", "Fashion & Clothing", "Home & Garden", "Health & Beauty",
   "Sports & Outdoors", "Books & Media", "Toys & Games", "Automotive",
   "Food & Beverages", "Art & Crafts", "Jewelry & Accessories", "Pet Supplies",
   "Office & Business", "Baby & Kids", "Music & Instruments", "Other"]

/-- The client `toggleCategory` handler (page.tsx lines 147-153): remove the
category when it is already selected, append it otherwise. -/
def toggleCategory (current : List String) (category : String) : List String :=
  if category ∈ current then current.filter (fun c => c != category)
  else current ++ [category]

/-- The observable effect of the Submit button's click handler. -/
inductive SubmitAction where
  | sendRequest (body : Payload)
  deriving DecidableEq, Repr

/-- The Submit button's click handler (page.tsx lines 805-826): it reads the
current form values with `watch()` and calls `onSubmit` on them directly —
bypassing `handleSubmit` and therefore the zodResolver validation — and
`onSubmit` (lines 117-145) unconditionally issues the one POST fetch. -/
def submitClick (form : Payload) : SubmitAction :=
  .sendRequest form

/-- A selected browser file reduced to the attributes `handleFileSelect`
inspects: name, MIME type, and byte size. -/
structure FileInfo where
  name : String
  type : String
  size : Nat
  deriving DecidableEq, Repr

/-- An entry of the client's uploaded-file list: the document type it was
selected for and the file (the object-URL preview is browser-external and not
modelled). -/
structure UploadedFile where
  type : String
  file : FileInfo
  deriving DecidableEq, Repr

/-- The MIME allow-list of `handleFileSelect`
(`src/app/seller/documents/page.tsx` line 44). -/
def allowedTypes : List String :=
  ["image/jpeg", "image/png", "image/jpg", "application/pdf"]

/-- A user-facing message of the documents page. -/
inductive UploadMsg where
  | errorMsg (text : String)
  | successMsg (text : String)
  deriving DecidableEq, Repr

/-- The `handleFileSelect` handler (documents page lines 40-66): reject a
disallowed MIME type, then reject a size above 5 * 1024 * 1024 bytes, leaving
the uploaded list untouched in both cases; otherwise replace any prior entry
for this document type and append the new one. -/
def handleFileSelect (uploadedFiles : List UploadedFile) (docType : String)
    (f : FileInfo) : List UploadedFile × UploadMsg :=
  if allowedTypes.contains f.type = false then
    (uploadedFiles, .errorMsg "Only JPEG, PNG, and PDF files are allowed")
  else if 5 * 1024 * 1024 < f.size then
    (uploadedFiles, .errorMsg "File size must be less than 5MB")
  else
    (uploadedFiles.filter (fun u => u.type != docType) ++ [⟨docType, f⟩],
     .successMsg (f.name ++ " uploaded successfully"))

/-- The acceptance condition of the file checks in `handleFileSelect`:
allow-listed MIME type and size at most 5 MiB. -/
def fileAccepted (f : FileInfo) : Bool :=
  allowedTypes.contains f.type && decide (f.size ≤ 5 * 1024 * 1024)

/-- A payload with every key absent from the JSON body. -/
def emptyPayload : Payload where
  businessName := none
  businessType := none
  description := none
  website := none
  phone := none
  businessEmail := none
  contactPersonName := none
  addressLine1 := none
  addressLine2 := none
  city := none
  state := none
  country := none
  postalCode := none
  taxId := none
  gstVatNumber := none
  businessLicense := none
  yearsInBusiness := none
  facebookUrl := none
  instagramUrl := none
  linkedinUrl := none
  twitterUrl := none
  bankAccountHolder := none
  bankName := none
  accountNumber := none
  ifscSwiftCode := none
  bankBranchAddress := none
  productCategories := none
  managesOwnShipping := none
  needsShippingHelp := none
  termsAccepted := none

/-- A concrete payload that satisfies the server schema. -/
def validPayload : Payload where
  businessName := some "Acme Traders"
  businessType := some "LLC"
  description := none
  website := none
  phone := some "+1 555-123-4567"
  businessEmail := none
  contactPersonName := some "Jane Doe"
  addressLine1 := some "12 Market Street"
  addressLine2 := none
  city := some "Pune"
  state := some "MH"
  country := some "IN"
  postalCode := some "411001"
  taxId := some "TAX12345"
  gstVatNumber := none
  businessLicense := some "LIC99"
  yearsInBusiness := none
  facebookUrl := none
  instagramUrl := none
  linkedinUrl := none
  twitterUrl := none
  bankAccountHolder := some "Jane Doe"
  bankName := some "State Bank"
  accountNumber := some "12345678"
  ifscSwiftCode := some "SBIN0001"
  bankBranchAddress := none
  productCategories := some ["Electronics"]
  managesOwnShipping := none
  needsShippingHelp := none
  termsAccepted := some true

/-- A store with no profiles and a single ordinary user. -/
def emptyState : ServerState where
  profiles := []
  roles := [("u1", "USER")]
  now := 0
  nextId := 1

/-- A concrete stored profile row owned by identity "u1". -/
def profile1 : SellerProfile :=
  mkProfile "u1" validPayload emptyState

/-- A store in which identity "u1" already owns exactly one profile. -/
def s1 : ServerState where
  profiles := [profile1]
  roles := [("u1", "SELLER")]
  now := 5
  nextId := 2

/-- A payload lacking one of the inputs the spec lists as required: a required
string key absent, the productCategories array absent or empty, or
termsAccepted not the literal `true`. -/
def missingRequired (p : Payload) : Prop :=
  p.businessName = none ∨ p.businessType = none ∨ p.phone = none ∨
  p.contactPersonName = none ∨ p.addressLine1 = none ∨ p.city = none ∨
  p.state = none ∨ p.country = none ∨ p.postalCode = none ∨
  p.taxId = none ∨ p.businessLicense = none ∨ p.bankAccountHolder = none ∨
  p.bankName = none ∨ p.accountNumber = none ∨ p.ifscSwiftCode = none ∨
  p.productCategories = none ∨ p.productCategories = some [] ∨
  p.termsAccepted ≠ some true

/-- The number of stored profile rows owned by `uid`. -/
def countFor (uid : String) (s : ServerState) : Nat :=
  (s.profiles.filter (fun prof => prof.userId == uid)).length

/-- Applying a sequence of registration calls (each an authentication context
and a payload) to the store, in order. -/
def runPosts : List (Option String × Payload) → ServerState → ServerState
  | [], s => s
  | c :: cs, s => runPosts cs (POST c.1 c.2 s).2

/-- Helper: a passing terms check forces the field to be the literal `true`. -/
theorem termsCheck_true {v : Option Bool} (h : termsCheck v = true) : v = some true := by
  cases v with
  | none => simp [termsCheck] at h
  | some b =>
    cases b with
    | false => simp [termsCheck] at h
    | true => rfl

/-- Helper: weakening a required minimum length keeps the check passing. -/
theorem reqMin_mono (m n : Nat) (hmn : m ≤ n) {v : Option String}
    (h : reqMin n v = true) : reqMin m v = true := by
  cases v with
  | none => simp [reqMin] at h
  | some s =>
    simp only [reqMin, decide_eq_true_eq] at h ⊢
    omega

/-- Helper: a payload with a missing required input fails the server schema. -/
theorem validateServer_false_of_missing {p : Payload} (h : missingRequired p) :
    validateServer p = false := by
  rcases h with h|h|h|h|h|h|h|h|h|h|h|h|h|h|h|h|h|h
  case inr.inr.inr.inr.inr.inr.inr.inr.inr.inr.inr.inr.inr.inr.inr.inr.inr =>
    cases ht : p.termsAccepted with
    | none => simp [validateServer, ht, termsCheck]
    | some b =>
      cases b with
      | false => simp [validateServer, ht, termsCheck]
      | true => exact absurd ht h
  all_goals simp [validateServer, h, reqMin, phoneCheck, enumCheck, nonEmptyArr]

/-- C2: an authenticated request whose payload misses any required field
(businessName, businessType, phone, contactPersonName, addressLine1, city,
state, country, postalCode, taxId, businessLicense, bankAccountHolder,
bankName, accountNumber, ifscSwiftCode, a non-empty productCategories array,
or termsAccepted = true) gets the InvalidInput response and leaves the store
unchanged, so no profile row is created. -/
theorem c2_missing_required_rejected (uid : String) (p : Payload) (s : ServerState)
    (h : missingRequired p) :
    POST (some uid) p s = (.invalidInput, s) := by
  simp [POST, validateServer_false_of_missing h]

/-- Witness for C2 at a concrete input: the all-absent payload is rejected. -/
theorem c2_witness : POST (some "u1") emptyPayload emptyState = (.invalidInput, emptyState) :=
  c2_missing_required_rejected "u1" emptyPayload emptyState (Or.inl rfl)

/-- C6: the source's Submit click handler issues the network request without
running validation — here shown at a failing input: the empty form fails the
client schema, yet the click handler still produces the request. The claim
(validate first, send nothing on failure) describes the configured
zodResolver/handleSubmit path, which the shipped onClick bypasses. -/
theorem c6_submit_bypasses_validation :
    validateClient emptyPayload = false ∧
    submitClick emptyPayload = .sendRequest emptyPayload :=
  ⟨by decide, rfl⟩

/-- C7: `handleFileSelect` accepts a file exactly when its MIME type is
allow-listed (JPEG, PNG, PDF) and its size is at most 5 MiB, appending it to
the uploaded set (replacing a prior entry of the same document type); any
other file leaves the set unchanged and produces an error message. In
particular a 6 MiB PNG and a .docx file of any size are rejected and a 4 MiB
PDF is accepted. -/
theorem c7_file_validation (uploadedFiles : List UploadedFile) (docType : String)
    (f : FileInfo) :
    (fileAccepted f = true →
      (handleFileSelect uploadedFiles docType f).1 =
        uploadedFiles.filter (fun u => u.type != docType) ++ [⟨docType, f⟩]) ∧
    (fileAccepted f = false →
      (handleFileSelect uploadedFiles docType f).1 = uploadedFiles ∧
      ∃ t, (handleFileSelect uploadedFiles docType f).2 = .errorMsg t) ∧
    fileAccepted ⟨"big.png", "image/png", 6 * 1024 * 1024⟩ = false ∧
    fileAccepted ⟨"doc.pdf", "application/pdf", 4 * 1024 * 1024⟩ = true ∧
    (∀ n : Nat, fileAccepted
      ⟨"resume.docx",
       "application/vnd.openxmlformats-officedocument.wordprocessingml.document",
       n⟩ = false) := by
  refine ⟨?_, ?_, by decide, by decide, fun n => rfl⟩
  · intro hacc
    simp only [fileAccepted, Bool.and_eq_true, decide_eq_true_eq] at hacc
    rw [handleFileSelect, if_neg (by simp only [hacc.1]; decide), if_neg (by omega)]
  · intro hacc
    by_cases hct : allowedTypes.contains f.type = false
    · rw [handleFileSelect, if_pos hct]
      exact ⟨rfl, _, rfl⟩
    · have hct2 : allowedTypes.contains f.type = true := by
        cases hcc : allowedTypes.contains f.type with
        | false => exact absurd hcc hct
        | true => rfl
      have hsz : 5 * 1024 * 1024 < f.size := by
        simp only [fileAccepted, hct2, Bool.true_and, decide_eq_false_iff_not] at hacc
        omega
      rw [handleFileSelect, if_neg hct, if_pos hsz]
      exact ⟨rfl, _, rfl⟩

/-- Witness for C7 at a concrete input: a 4 MiB PDF is added to the empty set. -/
theorem c7_witness :
    (handleFileSelect [] "ID_FRONT" ⟨"doc.pdf", "application/pdf", 4 * 1024 * 1024⟩).1 =
      List.filter (fun u => u.type != "ID_FRONT") [] ++
        [⟨"ID_FRONT", ⟨"doc.pdf", "application/pdf", 4 * 1024 * 1024⟩⟩] :=
  (c7_file_validation [] "ID_FRONT" ⟨"doc.pdf", "application/pdf", 4 * 1024 * 1024⟩).1
    (by decide)

/-- C9: the profile-query handler answers Unauthorized without an identity,
NotFound for an identity with no stored profile, and otherwise the read-only
twelve-field projection of the stored row; in every case the store is
returned unchanged. -/
theorem c9_profile_query (auth : Option String) (s : ServerState) :
    (GET auth s).2 = s ∧
    (auth = none → (GET auth s).1 = .unauthorized) ∧
    (∀ uid, auth = some uid → findProfile uid s = none → (GET auth s).1 = .notFound) ∧
    (∀ uid prof, auth = some uid → findProfile uid s = some prof →
      (GET auth s).1 = .ok (projectGet prof)) := by
  refine ⟨?_, ?_, ?_, ?_⟩
  · cases auth with
    | none => rfl
    | some uid =>
      cases hf : findProfile uid s with
      | none => simp [GET, hf]
      | some prof => simp [GET, hf]
  · rintro rfl; rfl
  · rintro uid rfl hf; simp [GET, hf]
  · rintro uid prof rfl hf; simp [GET, hf]

/-- Witness for C9 at a concrete input: an identity with no profile gets
NotFound. -/
theorem c9_witness : (GET (some "u1") emptyState).1 = .notFound :=
  (c9_profile_query (some "u1") emptyState).2.2.1 "u1" rfl rfl

/-- C10: a validated payload carrying yearsInBusiness = 0 (which the 0-100
schema range admits) is stored with yearsInBusiness NULL, because the
JavaScript `data.yearsInBusiness || null` normalization collapses the falsy 0. -/
theorem c10_zero_years_stored_null (uid : String) (p : Payload) (s : ServerState)
    (hv : validateServer p = true) (hy : p.yearsInBusiness = some 0)
    (hn : hasProfile uid s = false) :
    ∃ prof, (POST (some uid) p s).2.profiles = prof :: s.profiles ∧
      prof.yearsInBusiness = none := by
  refine ⟨mkProfile uid p s, ?_, ?_⟩
  · simp [POST, hv, hn]
  · simp [mkProfile, hy, zeroToNull]

/-- Witness for C10 at a concrete input. -/
theorem c10_witness :
    ∃ prof,
      (POST (some "u1") { validPayload with yearsInBusiness := some 0 } emptyState).2.profiles =
        prof :: emptyState.profiles ∧ prof.yearsInBusiness = none :=
  c10_zero_years_stored_null "u1" { validPayload with yearsInBusiness := some 0 } emptyState
    (by decide) rfl rfl

/-- C8: the category toggle is an idempotent add/remove on the selection.
Starting from a duplicate-free selection, toggling the same category twice
yields a list with exactly the original members, and one toggle keeps the
list duplicate-free. -/
theorem c8_toggle_idempotent (current : List String) (category : String)
    (h : current.Nodup) :
    (∀ x, x ∈ toggleCategory (toggleCategory current category) category ↔ x ∈ current) ∧
    (toggleCategory current category).Nodup := by
  by_cases hc : category ∈ current
  · have h1 : toggleCategory current category =
        current.filter (fun c => c != category) := by
      simp [toggleCategory, hc]
    have hnotin : category ∉ current.filter (fun c => c != category) := by
      simp [List.mem_filter]
    have h2 : toggleCategory (toggleCategory current category) category =
        current.filter (fun c => c != category) ++ [category] := by
      rw [h1, toggleCategory, if_neg hnotin]
    constructor
    · intro x
      rw [h2]
      simp only [List.mem_append, List.mem_filter, List.mem_singleton, bne_iff_ne, ne_eq]
      constructor
      · rintro (⟨hx, _⟩ | rfl)
        · exact hx
        · exact hc
      · intro hx
        by_cases hxc : x = category
        · exact Or.inr hxc
        · exact Or.inl ⟨hx, hxc⟩
    · rw [h1]
      exact h.filter _
  · have h1 : toggleCategory current category = current ++ [category] := by
      simp [toggleCategory, hc]
    have hcin : category ∈ current ++ [category] := by simp
    have hself : current.filter (fun c => c != category) = current := by
      apply List.filter_eq_self.mpr
      intro a ha
      simp only [bne_iff_ne, ne_eq]
      exact fun e => hc (e ▸ ha)
    have h2 : toggleCategory (toggleCategory current category) category = current := by
      rw [h1, toggleCategory, if_pos hcin, List.filter_append, hself]
      simp
    refine ⟨fun x => by rw [h2], ?_⟩
    rw [h1]
    simp [List.nodup_append, h, hc]

/-- Witness for C8 at a concrete input. -/
theorem c8_witness :
    (∀ x, x ∈ toggleCategory (toggleCategory ["Electronics"] "Fashion & Clothing")
        "Fashion & Clothing" ↔ x ∈ ["Electronics"]) ∧
    (toggleCategory ["Electronics"] "Fashion & Clothing").Nodup :=
  c8_toggle_idempotent ["Electronics"] "Fashion & Clothing" (by decide)

/-- C4 counterexample: a payload with a one-character taxId passes the client
schema but fails the server schema, so the two schemas do not accept the same
set of payloads. -/
theorem c4_counterexample :
    validateClient { validPayload with taxId := some "T" } = true ∧
    validateServer { validPayload with taxId := some "T" } = false := by
  exact ⟨by decide, by decide⟩

/-- C4 (amended): the server schema is strictly stricter — every payload the
server schema accepts is accepted by the client schema (the schemas differ
only in the six minimum lengths listed at `validateClient`), but not
conversely. -/
theorem c4_server_accepts_implies_client (p : Payload)
    (h : validateServer p = true) : validateClient p = true := by
  simp only [validateServer, Bool.and_eq_true] at h
  simp only [validateClient, Bool.and_eq_true]
  have h1 : reqMin 1 p.taxId = true := reqMin_mono 1 5 (by omega) (by tauto)
  have h2 : reqMin 1 p.businessLicense = true := reqMin_mono 1 3 (by omega) (by tauto)
  have h3 : reqMin 1 p.bankAccountHolder = true := reqMin_mono 1 2 (by omega) (by tauto)
  have h4 : reqMin 1 p.bankName = true := reqMin_mono 1 2 (by omega) (by tauto)
  have h5 : reqMin 1 p.accountNumber = true := reqMin_mono 1 8 (by omega) (by tauto)
  have h6 : reqMin 1 p.ifscSwiftCode = true := reqMin_mono 1 8 (by omega) (by tauto)
  tauto

/-- Witness for C4's amended theorem at a concrete input. -/
theorem c4_witness : validateClient validPayload = true :=
  c4_server_accepts_implies_client validPayload (by decide)

/-- C5 counterexample: an otherwise-valid payload whose productCategories
entry lies outside the sixteen-entry catalog still passes the server schema —
the endpoint never checks catalog membership. -/
theorem c5_counterexample :
    validateServer
        { validPayload with productCategories := some ["DefinitelyNotACategory"] } = true ∧
    productCategories.contains "DefinitelyNotACategory" = false := by
  exact ⟨by decide, by decide⟩

/-- C5 (amended): the server schema constrains productCategories only through
the array's length (non-emptiness), never through membership in the catalog:
replacing the categories by any list of the same length leaves the validation
verdict unchanged. -/
theorem c5_no_catalog_check (p : Payload) (l l2 : List String)
    (hp : p.productCategories = some l) (hlen : l2.length = l.length) :
    validateServer { p with productCategories := some l2 } = validateServer p := by
  simp [validateServer, nonEmptyArr, hp, hlen]

/-- Witness for C5's amended theorem at a concrete input. -/
theorem c5_witness :
    validateServer
        { validPayload with productCategories := some ["DefinitelyNotACategory"] } =
      validateServer validPayload :=
  c5_no_catalog_check validPayload ["Electronics"] ["DefinitelyNotACategory"] rfl rfl

/-- Helper: a store where no row is owned by `uid` holds zero rows for `uid`. -/
theorem countFor_eq_zero {uid : String} {s : ServerState}
    (h : hasProfile uid s = false) : countFor uid s = 0 := by
  simp only [hasProfile, List.any_eq_false] at h
  simp only [countFor, List.length_eq_zero]
  exact List.filter_eq_nil_iff.mpr h

/-- Helper: a store holding exactly one row for `uid` passes the duplicate
probe. -/
theorem hasProfile_of_countFor_one {uid : String} {s : ServerState}
    (h : countFor uid s = 1) : hasProfile uid s = true := by
  cases hh : hasProfile uid s with
  | false => have := countFor_eq_zero hh; omega
  | true => rfl

/-- Helper: one registration call never changes the number of rows an identity
that already owns exactly one row has. -/
theorem countFor_POST (a : Option String) (q : Payload) (uid : String)
    (st : ServerState) (h : countFor uid st = 1) :
    countFor uid (POST a q st).2 = 1 := by
  cases a with
  | none => simpa [POST] using h
  | some uid2 =>
    by_cases hval : validateServer q = false
    · simpa [POST, hval] using h
    · by_cases hex : hasProfile uid2 st = true
      · simpa [POST, hval, hex] using h
      · have hex2 : hasProfile uid2 st = false := by
          cases hb : hasProfile uid2 st with
          | false => rfl
          | true => exact absurd hb hex
        have hne : (uid2 == uid) = false := by
          cases hbe : uid2 == uid with
          | false => rfl
          | true =>
            have he : uid2 = uid := by simpa using hbe
            subst he
            have h0 := countFor_eq_zero hex2
            omega
        have hst : (POST (some uid2) q st).2 =
            { st with profiles := mkProfile uid2 q st :: st.profiles,
                      roles := promoteRole uid2 st.roles, nextId := st.nextId + 1 } := by
          simp [POST, hval, hex2]
        rw [hst]
        simp only [countFor] at h ⊢
        simp [List.filter_cons, mkProfile, hne, h]

/-- Helper: a sequence of registration calls preserves single ownership. -/
theorem countFor_runPosts (uid : String) (calls : List (Option String × Payload)) :
    ∀ st : ServerState, countFor uid st = 1 → countFor uid (runPosts calls st) = 1 := by
  induction calls with
  | nil => intro st h; exact h
  | cons c cs ih => intro st h; exact ih _ (countFor_POST c.1 c.2 uid st h)

/-- C1 counterexample: with a profile already stored for "u1", a registration
call whose payload fails validation is answered InvalidInput, not Conflict —
the handler validates before the duplicate check — so not every call by an
already-registered identity returns Conflict. (The store is still unchanged.) -/
theorem c1_counterexample :
    countFor "u1" s1 = 1 ∧
    POST (some "u1") emptyPayload s1 = (.invalidInput, s1) ∧
    POST (some "u1") emptyPayload s1 ≠ (.conflict, s1) := by
  exact ⟨by decide, by decide, by decide⟩

/-- C1 (amended): for an identity that already owns exactly one profile row, a
registration call whose payload passes validation returns Conflict with the
store unchanged, one whose payload fails validation returns InvalidInput with
the store unchanged, and after any further sequence of registration calls the
store still holds exactly one row for that identity. -/
theorem c1_one_profile_per_identity (uid : String) (p : Payload) (s : ServerState)
    (h : countFor uid s = 1) :
    (validateServer p = true → POST (some uid) p s = (.conflict, s)) ∧
    (validateServer p = false → POST (some uid) p s = (.invalidInput, s)) ∧
    ∀ calls : List (Option String × Payload), countFor uid (runPosts calls s) = 1 := by
  refine ⟨?_, ?_, fun calls => countFor_runPosts uid calls s h⟩
  · intro hv
    simp [POST, hv, hasProfile_of_countFor_one h]
  · intro hv
    simp [POST, hv]

/-- Witness for C1's amended theorem at a concrete input. -/
theorem c1_witness : POST (some "u1") validPayload s1 = (.conflict, s1) :=
  (c1_one_profile_per_identity "u1" validPayload s1 (by decide)).1 (by decide)

/-- C3: a validated payload from an authenticated identity with no existing
profile creates a row whose verificationStatus is PENDING and whose
termsAcceptedAt is the current time exactly when termsAccepted holds (always,
since validation requires it); every optional field submitted as the empty
string is stored as NULL (`emptyToNull`); the identity's role entries become
SELLER; and the 201 response carries exactly the five-field created
projection, which is determined by id, businessName, businessType,
verificationStatus and createdAt alone — hence excludes all payment and tax
fields. -/
theorem c3_successful_registration (uid : String) (p : Payload) (s : ServerState)
    (hv : validateServer p = true) (hn : hasProfile uid s = false) :
    ∃ prof,
      POST (some uid) p s =
        (.created (projectCreated prof),
         { s with profiles := prof :: s.profiles, roles := promoteRole uid s.roles,
                  nextId := s.nextId + 1 }) ∧
      prof.verificationStatus = "PENDING" ∧
      prof.termsAcceptedAt = (if p.termsAccepted.getD false then some s.now else none) ∧
      prof.termsAcceptedAt = some s.now ∧
      prof.description = emptyToNull p.description ∧
      prof.website = emptyToNull p.website ∧
      prof.businessEmail = emptyToNull p.businessEmail ∧
      prof.addressLine2 = emptyToNull p.addressLine2 ∧
      prof.gstVatNumber = emptyToNull p.gstVatNumber ∧
      prof.facebookUrl = emptyToNull p.facebookUrl ∧
      prof.instagramUrl = emptyToNull p.instagramUrl ∧
      prof.linkedinUrl = emptyToNull p.linkedinUrl ∧
      prof.twitterUrl = emptyToNull p.twitterUrl ∧
      prof.bankBranchAddress = emptyToNull p.bankBranchAddress ∧
      (∀ r ∈ promoteRole uid s.roles, r.1 = uid → r.2 = "SELLER") ∧
      (∀ prof1 prof2 : SellerProfile, prof1.id = prof2.id →
        prof1.businessName = prof2.businessName →
        prof1.businessType = prof2.businessType →
        prof1.verificationStatus = prof2.verificationStatus →
        prof1.createdAt = prof2.createdAt →
        projectCreated prof1 = projectCreated prof2) := by
  have ht : p.termsAccepted = some true := by
    apply termsCheck_true
    simp only [validateServer, Bool.and_eq_true] at hv
    tauto
  refine ⟨mkProfile uid p s, ?_, rfl, rfl, ?_, rfl, rfl, rfl, rfl, rfl, rfl, rfl, rfl,
    rfl, rfl, ?_, ?_⟩
  · simp [POST, hv, hn]
  · simp [mkProfile, ht]
  · intro r hr hru
    simp only [promoteRole, List.mem_map] at hr
    obtain ⟨r0, hr0, hr0eq⟩ := hr
    by_cases hb : (r0.1 == uid) = true
    · rw [if_pos hb] at hr0eq
      rw [← hr0eq]
    · rw [if_neg hb] at hr0eq
      subst hr0eq
      exact absurd (by simp [hru]) hb
  · intro prof1 prof2 e1 e2 e3 e4 e5
    simp [projectCreated, e1, e2, e3, e4, e5]

/-- Witness for C3 at a concrete input. -/
theorem c3_witness :
    ∃ prof,
      POST (some "u1") validPayload emptyState =
        (.created (projectCreated prof),
         { emptyState with profiles := prof :: emptyState.profiles,
                           roles := promoteRole "u1" emptyState.roles,
                           nextId := emptyState.nextId + 1 }) ∧
      prof.verificationStatus = "PENDING" ∧
      prof.termsAcceptedAt =
        (if validPayload.termsAccepted.getD false then some emptyState.now else none) ∧
      prof.termsAcceptedAt = some emptyState.now ∧
      prof.description = emptyToNull validPayload.description ∧
      prof.website = emptyToNull validPayload.website ∧
      prof.businessEmail = emptyToNull validPayload.businessEmail ∧
      prof.addressLine2 = emptyToNull validPayload.addressLine2 ∧
      prof.gstVatNumber = emptyToNull validPayload.gstVatNumber ∧
      prof.facebookUrl = emptyToNull validPayload.facebookUrl ∧
      prof.instagramUrl = emptyToNull validPayload.instagramUrl ∧
      prof.linkedinUrl = emptyToNull validPayload.linkedinUrl ∧
      prof.twitterUrl = emptyToNull validPayload.twitterUrl ∧
      prof.bankBranchAddress = emptyToNull validPayload.bankBranchAddress ∧
      (∀ r ∈ promoteRole "u1" emptyState.roles, r.1 = "u1" → r.2 = "SELLER") ∧
      (∀ prof1 prof2 : SellerProfile, prof1.id = prof2.id →
        prof1.businessName = prof2.businessName →
        prof1.businessType = prof2.businessType →
        prof1.verificationStatus = prof2.verificationStatus →
        prof1.createdAt = prof2.createdAt →
        projectCreated prof1 = projectCreated prof2) :=
  c3_successful_registration "u1" validPayload emptyState (by decide) rfl
